import Mathlib

/-!
Verification of the scope-resolution core of the `loadexternal` scheduler
(`src/xdist/scheduler/loadexternal.py`).

The embedding models:
* `LoadExternalScheduling.__init__` — building the `self.scopes` dict from the
  parsed rows of the csv scopes file (file opening and csv parsing are external
  collaborators, so the parsed rows are a parameter), plus the fatal error when
  no scopes file is configured;
* `LoadExternalScheduling._split_scope` — the fallback chain resolving a test
  identifier to its scope.

Python strings are Lean `String`s; the string operations used by the source
(`split("::")`, `"::".join`, `index("[")`, slicing) are given as structural
recursions over the character list so that all definitions evaluate.
The `self.scopes` dict is an insertion-ordered association list.
-/

namespace LoadExternal

/-- Python `nodeid.split("::")` on the character list of an identifier: scan left
to right, cutting at each non-overlapping occurrence of the two-character
separator `::`.  `splitSS []` is `[[]]`, matching Python `"".split("::") == [""]`. -/
def splitSS : List Char → List (List Char)
  | [] => [[]]
  | [c] => [[c]]
  | c1 :: c2 :: rest =>
    if c1 = ':' ∧ c2 = ':' then
      [] :: splitSS rest
    else
      match splitSS (c2 :: rest) with
      | s :: ss => (c1 :: s) :: ss
      | [] => [[c1]]

/-- Python `"::".join(parts)` on character lists. -/
def joinSS : List (List Char) → List Char
  | [] => []
  | [p] => p
  | p :: ps => p ++ [':', ':'] ++ joinSS ps

/-- Python `nodeid.index("[")`: index of the first `[` character, if any
(Python raises ValueError when the character is absent). -/
def bracketIdx : List Char → Option Nat
  | [] => none
  | c :: rest => if c = '[' then some 0 else (bracketIdx rest).map (· + 1)

/-- The rebinding `nodeid = "::".join(nodeid.split("::")[:-1])` (Python `[:-1]`
drops the last element). -/
def dropLastComponent (nodeid : String) : String :=
  String.mk (joinSS (splitSS nodeid.toList).dropLast)

/-- The rebinding `nodeid = nodeid[:parametrized_start_idx]` performed inside the
`suppress(ValueError)` block of `_split_scope`: when the identifier has no `[`,
`nodeid.index` raises and the identifier is left unchanged. -/
def stripParam (nodeid : String) : String :=
  match bracketIdx nodeid.toList with
  | some idx => String.mk (nodeid.toList.take idx)
  | none => nodeid

/-- Python `self.scopes.get(nodeid)` on the insertion-ordered association list
modelling the `self.scopes` dict. -/
def dictGet : List (String × String) → String → Option String
  | [], _ => none
  | p :: rest, k => if p.1 == k then some p.2 else dictGet rest k

/-- Python dict assignment `self.scopes[nodeid] = scope`: replace the value of an
existing key in place, otherwise append the new entry at the end (insertion
order, as for a Python dict). -/
def dictSet : List (String × String) → String → String → List (String × String)
  | [], k, v => [(k, v)]
  | p :: rest, k, v => if p.1 == k then (k, v) :: rest else p :: dictSet rest k v

/-- The pattern `scope = self.scopes.get(nodeid)` followed by `if scope: return scope`
in `_split_scope`: the hit counts only when the stored scope string is truthy,
i.e. non-empty. -/
def truthyGet (scopes : List (String × String)) (k : String) : Option String :=
  match dictGet scopes k with
  | some s => if s = "" then none else some s
  | none => none

/-- The lookup performed inside the `suppress(ValueError)` block of `_split_scope`:
reached only when the identifier contains a `[`, on the identifier truncated at
the first `[`. -/
def paramLookup (scopes : List (String × String)) (nodeid : String) : Option String :=
  match bracketIdx nodeid.toList with
  | some idx => truthyGet scopes (String.mk (nodeid.toList.take idx))
  | none => none

/-- `LoadExternalScheduling._split_scope`.  The Python body reuses the `nodeid`
variable: after the `suppress(ValueError)` block it holds `stripParam nodeid`,
the class-level step rebinds it to `dropLastComponent (stripParam nodeid)`, the
file-level step to `dropLastComponent` of that (looked up only when non-empty),
and the final `return nodeid` returns this doubly stripped identifier. -/
def _split_scope (scopes : List (String × String)) (nodeid : String) : String :=
  match truthyGet scopes nodeid with
  | some scope => scope
  | none =>
  match paramLookup scopes nodeid with
  | some scope => scope
  | none =>
  match truthyGet scopes (dropLastComponent (stripParam nodeid)) with
  | some scope => scope
  | none =>
  match (if (dropLastComponent (dropLastComponent (stripParam nodeid))).toList.length > 0
         then truthyGet scopes (dropLastComponent (dropLastComponent (stripParam nodeid)))
         else none) with
  | some scope => scope
  | none => dropLastComponent (dropLastComponent (stripParam nodeid))

/-- The diagnostic logged by `__init__` for a row without exactly two columns. -/
def badRowMsg : String := "row in durations file doesn\x27t have exactly 2 columns, ignoring"

/-- One iteration of the row loop in `LoadExternalScheduling.__init__`: a row with
exactly two columns updates the scopes dict, any other row only logs the
diagnostic and is skipped (`continue`). -/
def processRow (st : List (String × String) × List String) (row : List String) :
    List (String × String) × List String :=
  match row with
  | [nodeid, scope] => (dictSet st.1 nodeid scope, st.2)
  | _ => (st.1, st.2 ++ [badRowMsg])

/-- The row loop of `LoadExternalScheduling.__init__` over the parsed csv rows,
starting from the empty `self.scopes` dict; returns the dict and the logged
diagnostics. -/
def buildScopes (rows : List (List String)) : List (String × String) × List String :=
  rows.foldl processRow ([], [])

/-- `LoadExternalScheduling.__init__`: `config.getvalue("scopes")` is modelled as
an optional string (Python treats both `None` and `""` as falsy) and the
`raise RuntimeError("no scopes file specified")` as `Except.error`. -/
def initScheduling (scope_filename : Option String) (rows : List (List String)) :
    Except String (List (String × String) × List String) :=
  match scope_filename with
  | none => Except.error "no scopes file specified"
  | some fn =>
    if fn = "" then Except.error "no scopes file specified"
    else Except.ok (buildScopes rows)

/-- The scope-table effect of one row of the loop in `__init__`, without the log. -/
def tableStep (d : List (String × String)) (row : List String) : List (String × String) :=
  match row with
  | [nodeid, scope] => dictSet d nodeid scope
  | _ => d

/-- Whether a parsed row is a two-column record whose identifier column is `k`. -/
def keyMatches (k : String) (row : List String) : Bool :=
  match row with
  | [a, _] => a == k
  | _ => false

/-! ## Helper lemmas -/

/-- `_split_scope` depends on the scopes dict only through `truthyGet`. -/
theorem split_scope_congr (m₁ m₂ : List (String × String)) (nodeid : String)
    (h : ∀ k, truthyGet m₁ k = truthyGet m₂ k) :
    _split_scope m₁ nodeid = _split_scope m₂ nodeid := by
  have hp : paramLookup m₁ nodeid = paramLookup m₂ nodeid := by
    unfold paramLookup
    cases bracketIdx nodeid.toList with
    | none => rfl
    | some idx => exact h _
  unfold _split_scope
  rw [h nodeid, hp, h (dropLastComponent (stripParam nodeid)),
    h (dropLastComponent (dropLastComponent (stripParam nodeid)))]

/-- After `d[k] = v`, looking up `k` yields `v`. -/
theorem dictGet_dictSet_self (d : List (String × String)) (k v : String) :
    dictGet (dictSet d k v) k = some v := by
  induction d with
  | nil => simp [dictSet, dictGet]
  | cons p rest ih =>
    by_cases h : p.1 = k
    · simp [dictSet, dictGet, h]
    · simp [dictSet, dictGet, h, ih]

/-- After `d[k] = v`, lookups at other keys are unchanged. -/
theorem dictGet_dictSet_ne (d : List (String × String)) (k v k' : String) (h : k' ≠ k) :
    dictGet (dictSet d k v) k' = dictGet d k' := by
  have hkk : ¬ k = k' := Ne.symm h
  induction d with
  | nil => simp [dictSet, dictGet, hkk]
  | cons p rest ih =>
    by_cases hp : p.1 = k
    · have hp' : ¬ p.1 = k' := by rw [hp]; exact hkk
      simp [dictSet, dictGet, hp, hp', hkk]
    · simp only [dictSet, beq_iff_eq, hp, if_false]
      by_cases hk' : p.1 = k'
      · simp [dictGet, hk']
      · simp [dictGet, hk', ih]

/-- Removing every entry with key `k` makes the lookup at `k` miss. -/
theorem dictGet_filter_self (m : List (String × String)) (k : String) :
    dictGet (m.filter (fun p => !(p.1 == k))) k = none := by
  induction m with
  | nil => rfl
  | cons p rest ih =>
    by_cases h : p.1 = k
    · simp [List.filter_cons, h, ih]
    · simp [List.filter_cons, dictGet, h, ih]

/-- Removing every entry with key `k` leaves lookups at other keys unchanged. -/
theorem dictGet_filter_ne (m : List (String × String)) (k k' : String) (h : k' ≠ k) :
    dictGet (m.filter (fun p => !(p.1 == k))) k' = dictGet m k' := by
  have hkk : ¬ k = k' := Ne.symm h
  induction m with
  | nil => rfl
  | cons p rest ih =>
    by_cases hp : p.1 = k
    · have hp' : ¬ p.1 = k' := by rw [hp]; exact hkk
      simp [List.filter_cons, dictGet, hp, hp', hkk, ih]
    · by_cases hk' : p.1 = k'
      · simp [List.filter_cons, dictGet, hp, hk', h]
      · simp [List.filter_cons, dictGet, hp, hk', ih]

/-- The scope-table component of one loop iteration is `tableStep`. -/
theorem processRow_fst (st : List (String × String) × List String) (row : List String) :
    (processRow st row).1 = tableStep st.1 row := by
  cases row with
  | nil => rfl
  | cons a t =>
    cases t with
    | nil => rfl
    | cons b t2 =>
      cases t2 with
      | nil => rfl
      | cons c t3 => rfl

/-- The scope-table component of the whole loop is the fold of `tableStep`. -/
theorem foldl_processRow_fst (rows : List (List String)) :
    ∀ st : List (String × String) × List String,
      (rows.foldl processRow st).1 = rows.foldl tableStep st.1 := by
  induction rows with
  | nil => intro st; rfl
  | cons r rs ih =>
    intro st
    simp only [List.foldl_cons]
    rw [ih, processRow_fst]

/-- A row without exactly two columns leaves the table unchanged and only logs. -/
theorem processRow_bad (st : List (String × String) × List String) (row : List String)
    (h : row.length ≠ 2) : processRow st row = (st.1, st.2 ++ [badRowMsg]) := by
  cases row with
  | nil => rfl
  | cons a t =>
    cases t with
    | nil => rfl
    | cons b t2 =>
      cases t2 with
      | nil => exact absurd rfl h
      | cons c t3 => rfl

/-- A row without exactly two columns does not change the scope table. -/
theorem tableStep_bad (d : List (String × String)) (row : List String)
    (h : row.length ≠ 2) : tableStep d row = d := by
  cases row with
  | nil => rfl
  | cons a t =>
    cases t with
    | nil => rfl
    | cons b t2 =>
      cases t2 with
      | nil => exact absurd rfl h
      | cons c t3 => rfl

/-- Each loop iteration either keeps the log or appends the diagnostic. -/
theorem processRow_snd (st : List (String × String) × List String) (row : List String) :
    (processRow st row).2 = st.2 ∨ (processRow st row).2 = st.2 ++ [badRowMsg] := by
  cases row with
  | nil => exact Or.inr rfl
  | cons a t =>
    cases t with
    | nil => exact Or.inr rfl
    | cons b t2 =>
      cases t2 with
      | nil => exact Or.inl rfl
      | cons c t3 => exact Or.inr rfl

/-- The loop never removes an already logged message. -/
theorem log_mono (msg : String) (rows : List (List String)) :
    ∀ st : List (String × String) × List String,
      msg ∈ st.2 → msg ∈ (rows.foldl processRow st).2 := by
  induction rows with
  | nil => intro st h; exact h
  | cons r rs ih =>
    intro st h
    simp only [List.foldl_cons]
    apply ih
    rcases processRow_snd st r with heq | heq
    · rw [heq]; exact h
    · rw [heq]; exact List.mem_append_left _ h

/-- A row that is not a two-column record with identifier `k` leaves the lookup
at `k` unchanged. -/
theorem dictGet_tableStep_no_key (d : List (String × String)) (k : String)
    (row : List String) (h : keyMatches k row = false) :
    dictGet (tableStep d row) k = dictGet d k := by
  cases row with
  | nil => rfl
  | cons a t =>
    cases t with
    | nil => rfl
    | cons b t2 =>
      cases t2 with
      | nil =>
        have hne : a ≠ k := by
          intro he
          rw [keyMatches] at h
          simp [he] at h
        exact dictGet_dictSet_ne d a b k (Ne.symm hne)
      | cons c t3 => rfl

/-- Folding rows none of which is a two-column record with identifier `k`
leaves the lookup at `k` unchanged. -/
theorem dictGet_foldl_no_key (k : String) (rows : List (List String)) :
    ∀ d : List (String × String), rows.all (fun r => !(keyMatches k r)) = true →
      dictGet (rows.foldl tableStep d) k = dictGet d k := by
  induction rows with
  | nil => intro d _; rfl
  | cons r rs ih =>
    intro d h
    simp only [List.all_cons, Bool.and_eq_true, Bool.not_eq_true'] at h
    simp only [List.foldl_cons]
    rw [ih _ h.2, dictGet_tableStep_no_key _ _ _ h.1]

/-! ## Claim theorems -/

/-- C1: the claim states that `_split_scope` always returns a non-empty ScopeKey.
The code violates it: because the final `return nodeid` returns the reused,
doubly stripped variable, any unmapped identifier with at most two
`::`-separated segments resolves to the empty string — including the first
example of `_split_scope`'s own docstring, which the docstring says groups to
its file (and which the docstring's fallback sentence says resolves to the
exact node id). -/
theorem resolve_returns_empty_eval :
    _split_scope [] "a::b" = ""
    ∧ _split_scope [] "example/loadsuite/test/test_beta.py::test_beta0" = "" := by
  decide

/-- C2: the claim states that an identifier matched at no fallback level
resolves to itself, making unmapped parametrized siblings two distinct
singleton scopes.  The code violates it: the final `return nodeid` returns the
doubly stripped identifier, so `mod.py::test[x]` and `mod.py::test[y]` with an
empty mapping both resolve to `""` — not to themselves, and not to distinct
scopes. -/
theorem fallback_not_original_eval :
    _split_scope [] "mod.py::test[x]" = ""
    ∧ _split_scope [] "mod.py::test[y]" = ""
    ∧ _split_scope [] "mod.py::test[x]" ≠ "mod.py::test[x]"
    ∧ _split_scope [] "mod.py::test[x]" = _split_scope [] "mod.py::test[y]" := by
  decide

/-- C3 counterexample: the claim states that steps 3/4 strip trailing segments
from the id exactly as given, not from the parametrization-stripped variant.
Concretely falsified: for `mod.py::test[a::b]`, the last-segment-stripped
original `mod.py::test[a` is mapped to `S` and no earlier step matches, yet
`_split_scope` does not return `S` (it strips from `mod.py::test` instead). -/
theorem strip_steps_original_cex :
    dropLastComponent "mod.py::test[a::b]" = "mod.py::test[a"
    ∧ truthyGet [("mod.py::test[a", "S")] "mod.py::test[a" = some "S"
    ∧ truthyGet [("mod.py::test[a", "S")] "mod.py::test[a::b]" = none
    ∧ paramLookup [("mod.py::test[a", "S")] "mod.py::test[a::b]" = none
    ∧ _split_scope [("mod.py::test[a", "S")] "mod.py::test[a::b]" ≠ "S" := by
  decide

/-- C3 amended: fallback steps 3 and 4 perform their lookups on the
parametrization-stripped variant of the identifier (the identifier itself when
it has no `[`) with its last one, respectively last two, `::`-delimited
segments removed; the two-segment lookup moreover only happens when the
resulting key is non-empty. -/
theorem strip_steps_use_stripped (m : List (String × String)) (nodeid s : String)
    (h1 : truthyGet m nodeid = none)
    (h2 : paramLookup m nodeid = none) :
    (truthyGet m (dropLastComponent (stripParam nodeid)) = some s →
      _split_scope m nodeid = s)
    ∧ (truthyGet m (dropLastComponent (stripParam nodeid)) = none →
       (dropLastComponent (dropLastComponent (stripParam nodeid))).toList.length > 0 →
       truthyGet m (dropLastComponent (dropLastComponent (stripParam nodeid))) = some s →
       _split_scope m nodeid = s) := by
  constructor
  · intro h3
    unfold _split_scope
    simp only [h1, h2, h3]
  · intro h3 hlen h4
    unfold _split_scope
    simp only [h1, h2, h3, if_pos hlen, h4]

/-- C3 witness: step 3 looks up `mod.py` (stripped from `mod.py::test`, not from
`mod.py::test[a::b]`), and step 4 looks up `a::b` for `a::b::c::d`. -/
theorem strip_steps_use_stripped_witness :
    _split_scope [("mod.py", "F")] "mod.py::test[a::b]" = "F"
    ∧ _split_scope [("a::b", "F2")] "a::b::c::d" = "F2" :=
  ⟨(strip_steps_use_stripped [("mod.py", "F")] "mod.py::test[a::b]" "F"
      (by decide) (by decide)).1 (by decide),
   (strip_steps_use_stripped [("a::b", "F2")] "a::b::c::d" "F2"
      (by decide) (by decide)).2 (by decide) (by decide) (by decide)⟩

/-- C4: when the identifier contains a `[` and its exact form is unmapped (no
truthy hit), the next lookup is performed on the identifier truncated at the
first `[`, and a truthy hit there is returned. -/
theorem param_suffix_fallback (m : List (String × String)) (nodeid : String) (idx : Nat)
    (s : String) (hb : bracketIdx nodeid.toList = some idx)
    (h1 : truthyGet m nodeid = none)
    (h2 : truthyGet m (String.mk (nodeid.toList.take idx)) = some s) :
    _split_scope m nodeid = s := by
  have hp : paramLookup m nodeid = some s := by
    unfold paramLookup; rw [hb]; exact h2
  unfold _split_scope
  simp only [h1, hp]

/-- C4 witness: with `mod.py::test` mapped to `S`, both `mod.py::test[x]` and
`mod.py::test[y]` resolve to `S`. -/
theorem param_suffix_fallback_witness :
    _split_scope [("mod.py::test", "S")] "mod.py::test[x]" = "S"
    ∧ _split_scope [("mod.py::test", "S")] "mod.py::test[y]" = "S" :=
  ⟨param_suffix_fallback _ _ 12 _ (by decide) (by decide) (by decide),
   param_suffix_fallback _ _ 12 _ (by decide) (by decide) (by decide)⟩

/-- C5: `_split_scope` is a pure function of the mapping table and the
identifier: it depends on the table only through its lookup behaviour, so any
two tables with identical lookups give the identical ScopeKey (and, being a
function, identical inputs always give identical results and no state is
touched). -/
theorem resolve_deterministic (m₁ m₂ : List (String × String)) (nodeid : String)
    (h : ∀ k, dictGet m₁ k = dictGet m₂ k) :
    _split_scope m₁ nodeid = _split_scope m₂ nodeid := by
  apply split_scope_congr
  intro k
  unfold truthyGet
  rw [h k]

/-- C5 witness: two representations of the same dict resolve identically. -/
theorem resolve_deterministic_witness :
    _split_scope [("a", "b"), ("a", "c")] "a" = _split_scope [("a", "b")] "a" :=
  resolve_deterministic _ _ "a" (by
    intro k
    by_cases h : ("a" : String) = k
    · simp [dictGet, h]
    · simp [dictGet, h])

/-- C6: a record whose column count differs from two is skipped — the scope
table is the one built without it — the diagnostic is logged, and construction
still succeeds. -/
theorem malformed_row_skipped (pre post : List (List String)) (bad : List String)
    (fn : String) (hbad : bad.length ≠ 2) (hfn : fn ≠ "") :
    (buildScopes (pre ++ bad :: post)).1 = (buildScopes (pre ++ post)).1
    ∧ badRowMsg ∈ (buildScopes (pre ++ bad :: post)).2
    ∧ ∃ res, initScheduling (some fn) (pre ++ bad :: post) = Except.ok res := by
  refine ⟨?_, ?_, ?_⟩
  · unfold buildScopes
    rw [foldl_processRow_fst, foldl_processRow_fst]
    rw [List.foldl_append, List.foldl_append, List.foldl_cons, tableStep_bad _ _ hbad]
  · unfold buildScopes
    rw [List.foldl_append, List.foldl_cons]
    apply log_mono
    rw [processRow_bad _ _ hbad]
    simp
  · refine ⟨buildScopes (pre ++ bad :: post), ?_⟩
    simp [initScheduling, hfn]

/-- C6 witness: a three-column row between two good rows is skipped, the
diagnostic is logged, and construction succeeds. -/
theorem malformed_row_skipped_witness :
    (buildScopes [["a", "b"], ["x", "y", "z"], ["c", "d"]]).1 =
      (buildScopes [["a", "b"], ["c", "d"]]).1
    ∧ badRowMsg ∈ (buildScopes [["a", "b"], ["x", "y", "z"], ["c", "d"]]).2
    ∧ ∃ res, initScheduling (some "scopes.csv") [["a", "b"], ["x", "y", "z"], ["c", "d"]] =
        Except.ok res :=
  malformed_row_skipped [["a", "b"]] [["c", "d"]] ["x", "y", "z"] "scopes.csv"
    (by decide) (by decide)

/-- C7: when no scopes filename is configured (unset, or set to the empty
string, both falsy in Python), construction raises the fatal
`no scopes file specified` error and produces no scheduler state. -/
theorem missing_scopes_file_fatal (rows : List (List String)) :
    initScheduling none rows = Except.error "no scopes file specified"
    ∧ initScheduling (some "") rows = Except.error "no scopes file specified" := by
  constructor
  · rfl
  · simp [initScheduling]

/-- C8: when several two-column records share the same identifier key, the scope
table maps that key to the ScopeKey of the last such record in file order. -/
theorem last_record_wins (pre post : List (List String)) (k v : String)
    (h : post.all (fun r => !(keyMatches k r)) = true) :
    dictGet (buildScopes (pre ++ [k, v] :: post)).1 k = some v := by
  unfold buildScopes
  rw [foldl_processRow_fst, List.foldl_append, List.foldl_cons]
  rw [dictGet_foldl_no_key k post _ h]
  show dictGet (dictSet _ k v) k = some v
  exact dictGet_dictSet_self _ k v

/-- C8 witness: with `k` mapped to `old` and later to `new`, the table yields
`new`. -/
theorem last_record_wins_witness :
    dictGet (buildScopes [["k", "old"], ["k", "new"], ["a", "b"], ["x"]]).1 "k" =
      some "new" :=
  last_record_wins [["k", "old"]] [["a", "b"], ["x"]] "k" "new" (by decide)

/-- C9: a record mapping a key to the empty string is stored in the scope table
(`dictGet` finds it), yet every lookup step of `_split_scope` ignores it: when
the entry for `k` is `""`, resolution behaves exactly as if `k` were absent
from the table. -/
theorem empty_scope_stored_but_ignored :
    (∀ (d : List (String × String)) (k : String), dictGet (dictSet d k "") k = some "")
    ∧ ∀ (m : List (String × String)) (k nodeid : String), dictGet m k = some "" →
        _split_scope m nodeid = _split_scope (m.filter (fun p => !(p.1 == k))) nodeid := by
  constructor
  · intro d k
    exact dictGet_dictSet_self d k ""
  · intro m k nodeid h
    apply split_scope_congr
    intro k'
    by_cases hk : k' = k
    · subst hk
      unfold truthyGet
      rw [h, dictGet_filter_self]
      simp
    · unfold truthyGet
      rw [dictGet_filter_ne _ _ _ hk]

/-- C9 witness: the entry `("a", "")` is stored, and resolving `a` against
`[("a", "")]` equals resolving it against the table with the entry removed. -/
theorem empty_scope_stored_but_ignored_witness :
    dictGet (dictSet [] "a" "") "a" = some ""
    ∧ _split_scope [("a", "")] "a" =
        _split_scope ([("a", "")].filter (fun p => !(p.1 == "a"))) "a" :=
  ⟨empty_scope_stored_but_ignored.1 [] "a",
   empty_scope_stored_but_ignored.2 [("a", "")] "a" "a" (by decide)⟩

/-- C10: the one-segment-stripping step performs its lookup even when stripping
leaves the empty string: for an identifier unmatched by the earlier steps whose
one-segment-stripped form is `""`, a table record mapping `""` to a non-empty
ScopeKey resolves the identifier to that ScopeKey. -/
theorem empty_key_lookup (m : List (String × String)) (nodeid s : String)
    (h1 : truthyGet m nodeid = none)
    (h2 : paramLookup m nodeid = none)
    (h3 : dropLastComponent (stripParam nodeid) = "")
    (h4 : dictGet m "" = some s)
    (h5 : s ≠ "") :
    _split_scope m nodeid = s := by
  have ht : truthyGet m (dropLastComponent (stripParam nodeid)) = some s := by
    rw [h3]
    unfold truthyGet
    rw [h4]
    simp [h5]
  unfold _split_scope
  simp only [h1, h2, ht]

/-- C10 witness: `abc` has no `::`, so step 3 looks up `""`; with `("", "S")` in
the table, `abc` resolves to `S`. -/
theorem empty_key_lookup_witness :
    _split_scope [("", "S")] "abc" = "S" :=
  empty_key_lookup [("", "S")] "abc" "S" (by decide) (by decide) (by decide)
    (by decide) (by decide)

end LoadExternal
